import Mathlib

/-!
# Verification of the miniCT CTD serial driver

A shallow embedding, in Lean 4, of the protocol engine of the miniCT driver
(`src/minict/minict.py`, the packaged driver, and where noted the near-duplicate
top-level `src/minict.py`).  Python strings are `String`, Python `float` values
are modelled as exact rationals `ℚ` (every numeric literal the instrument
emits is a finite decimal), Python exceptions (`ValueError` from `float`/`split`,
`KeyError` from dictionary lookup) are modelled with `Option`, and the
`AssertionError` raised by argument validation is modelled with `Except String`.

The driver's mutable attributes become the fields of `DriverState`; the body of
the background receiver thread processing a single decoded line becomes the
step function `receiveStep`.
-/

/-! ## Python string and number primitives -/

/-- Numeric value of a list of ASCII decimal digits (most significant first). -/
def digitsVal (cs : List Char) : Nat :=
  cs.foldl (fun a c => 10 * a + (c.toNat - 48)) 0

/-- Split a character list into its longest digit prefix and the remainder. -/
def spanDigits (cs : List Char) : List Char × List Char :=
  (cs.takeWhile Char.isDigit, cs.dropWhile Char.isDigit)

/-- Optional leading sign, as in Python float syntax: returns the sign factor
and the remaining characters. -/
def parseSignChars : List Char → Int × List Char
  | '+' :: rest => (1, rest)
  | '-' :: rest => (-1, rest)
  | cs => (1, cs)

/-- The optional exponent suffix of a Python float literal: empty means
exponent 0; otherwise an `e`/`E`, an optional sign, and at least one digit
consuming the rest of the input. -/
def parseExpPart (cs : List Char) : Option Int :=
  match cs with
  | [] => some 0
  | e :: rest =>
    if e = 'e' ∨ e = 'E' then
      let p := parseSignChars rest
      let d := spanDigits p.2
      if d.1.isEmpty ∨ ¬ d.2.isEmpty then none
      else some (p.1 * (digitsVal d.1 : Int))
    else none

/-- Mantissa of a Python float literal: `digits [. digits]` or `. digits`,
with at least one digit present.  Returns the combined digit value, the
number of fractional digits, and the remaining characters. -/
def parseMantissaParts (cs : List Char) : Option (Nat × Nat × List Char) :=
  let ip := spanDigits cs
  match ip.2 with
  | '.' :: rest1 =>
    let fp := spanDigits rest1
    if ip.1.isEmpty ∧ fp.1.isEmpty then none
    else some (digitsVal (ip.1 ++ fp.1), fp.1.length, fp.2)
  | _ => if ip.1.isEmpty then none else some (digitsVal ip.1, 0, ip.2)

/-- Strip leading and trailing whitespace, as Python `str.strip()` does. -/
def trimChars (cs : List Char) : List Char :=
  ((cs.dropWhile Char.isWhitespace).reverse.dropWhile Char.isWhitespace).reverse

/-- Model of Python `float(s)` on the finite decimal forms
`[ws] [sign] (digits [. digits] | . digits) [(e|E) [sign] digits] [ws]`,
returning the exact rational value; `none` models the `ValueError` Python
raises on any other input.  (The special forms `inf`/`nan` and digit-group
underscores are not representable here and never occur in this protocol.) -/
def parseFloat (s : String) : Option ℚ :=
  let cs := trimChars s.data
  let sg := parseSignChars cs
  match parseMantissaParts sg.2 with
  | none => none
  | some (n, f, rest) =>
    match parseExpPart rest with
    | none => none
    | some e =>
      let t := e - (f : Int)
      if 0 ≤ t then some (mkRat (sg.1 * (n : Int) * (10 : Int) ^ t.toNat) 1)
      else some (mkRat (sg.1 * (n : Int)) ((10 : Nat) ^ (-t).toNat))

/-- One pass of Python `str.split(sep)` for a non-empty separator `sep`:
leftmost non-overlapping occurrences of `sep` cut the string; the fuel is at
least the length of the input so the fallback case is never reached. -/
def splitFuel (sep : List Char) : Nat → List Char → List Char → List (List Char)
  | _, [], acc => [acc.reverse]
  | 0, rest, acc => [acc.reverse ++ rest]
  | fuel + 1, c :: rest, acc =>
    if sep.isPrefixOf (c :: rest) then
      acc.reverse :: splitFuel sep fuel (List.drop (sep.length - 1) rest) []
    else
      splitFuel sep fuel rest (c :: acc)

/-- Model of Python `s.split(sep)`: `none` models the `ValueError` raised for
an empty separator; otherwise the list of fields (always non-empty, and
`[""]` for the empty string, as in Python). -/
def pySplit (sep s : String) : Option (List String) :=
  if sep = "" then none
  else some ((splitFuel sep.data s.data.length s.data []).map String.mk)

/-- Model of Python `s.rstrip()`: drop trailing whitespace. -/
def pyRstrip (s : String) : String :=
  String.mk ((s.data.reverse.dropWhile Char.isWhitespace).reverse)

/-- Model of Python `s.strip('"')`: drop leading and trailing quote characters. -/
def stripQuotes (s : String) : String :=
  String.mk (((s.data.dropWhile (fun c => c = '\"')).reverse.dropWhile
    (fun c => c = '\"')).reverse)

/-- Python `s[-4:]` — the last four characters (the whole string when it is
shorter than four characters). -/
def sliceLast4 (s : String) : String :=
  String.mk (s.data.drop (s.data.length - 4))

/-- `[float(value) for value in fields]`: parse every field as a float,
aborting the whole comprehension (`none`, the propagated `ValueError`) if any
field fails. -/
def mapFloat : List String → Option (List ℚ)
  | [] => some []
  | s :: rest =>
    match parseFloat s, mapFloat rest with
    | some v, some vs => some (v :: vs)
    | _, _ => none

/-- Python list slice `[::3]`: every third element starting at index 0. -/
def stride3 {α : Type} : List α → List α
  | [] => []
  | [a] => [a]
  | [a, _] => [a]
  | a :: _ :: _ :: rest => a :: stride3 rest

/-! ## Line patterns of the receiver loop (`src/minict/minict.py`, lines 115-117)

`num_regex = "^\d"`, `int_regex = "^>"`, `com_regex = ".*(#\d{3})"`, all used
with `re.match` against the rstripped line; `.` does not cross a newline. -/

/-- `re.match("^\d", s)`: the line begins with a decimal digit. -/
def leadsDigit (s : String) : Bool :=
  match s.data with
  | c :: _ => c.isDigit
  | [] => false

/-- `re.match("^>", s)`: the line begins with `>`. -/
def leadsGt (s : String) : Bool :=
  match s.data with
  | c :: _ => c = '>'
  | [] => false

/-- A `#` followed by three decimal digits at the head of `cs`, as matched by
the group `(#\d{3})` of `com_regex`. -/
def cmdEchoAt : List Char → Option String
  | '#' :: a :: b :: c :: _ =>
    if a.isDigit ∧ b.isDigit ∧ c.isDigit then some (String.mk ['#', a, b, c])
    else none
  | _ => none

/-- Scan for occurrences of `#\d{3}`, keeping the last one seen; an occurrence
after a newline is unreachable for the regex because `.` does not match `\n`. -/
def lastCmdEchoAux : List Char → Option String → Option String
  | [], acc => acc
  | ch :: rest, acc =>
    if ch = '\n' then acc
    else
      match cmdEchoAt (ch :: rest) with
      | some s => lastCmdEchoAux rest (some s)
      | none => lastCmdEchoAux rest acc

/-- `re.match(".*(#\d{3})", s)` together with `group(1)`: `some code` iff the
line matches the command-echo pattern, and then `code` is the occurrence the
greedy `.*` selects (the last one before any newline). -/
def lastCmdEcho (cs : List Char) : Option String :=
  lastCmdEchoAux cs none

/-! ## Driver state (`MiniCTDriver.__init__`, `src/minict/minict.py` lines 54-85) -/

/-- The `_datagram` configuration dictionary: one string field per registered
command code, plus the nested `header` map (insertion-ordered, as a Python
dict). -/
structure Datagram where
  header : List (String × String)
  address : String
  address_mode : String
  last_result : String
  delimiter : String
  run_mode : String
  software_version : String
  serial_number : String
  operating_mode : String
  output_format : String
  deriving DecidableEq

/-- The mutable attributes of `MiniCTDriver`.  `state = true` models
`_state = True` (continuous read mode); `command` is `_command`, the last
acknowledged command code; `output_format`/`delimiter` are the instance
attributes `_output_format`/`_delimiter`; `dg` is the `_datagram` dictionary;
`baudrate` stands for `self.ser.baudrate`; `last` is `self._last`. -/
structure DriverState where
  running : Bool
  state : Bool
  delimiter : String
  available : Bool
  values : List ℚ
  command : String
  output_format : String
  configured : Bool
  baudrate : Int
  last : String
  dg : Datagram
  deriving DecidableEq

/-- `_datagram` as built in `__init__`: every field the empty string, empty
header map. -/
def initDatagram : Datagram :=
  { header := [], address := "", address_mode := "", last_result := "",
    delimiter := "", run_mode := "", software_version := "", serial_number := "",
    operating_mode := "", output_format := "" }

/-- The driver state right after `__init__(dev, baud)`. -/
def initState (baud : Int) : DriverState :=
  { running := false, state := false, delimiter := "", available := false,
    values := [], command := "", output_format := "", configured := false,
    baudrate := baud, last := "", dg := initDatagram }

/-- Python dict assignment `d[k] = v` on an association list: replace the
binding if the key is present, else append it. -/
def dictInsert (k v : String) : List (String × String) → List (String × String)
  | [] => [(k, v)]
  | (k0, v0) :: rest =>
    if k0 = k then (k, v) :: rest else (k0, v0) :: dictInsert k v rest

/-! ## Value decoding (`_parse_values`, `src/minict/minict.py` lines 176-183) -/

/-- The value computation of `_parse_values`, as a function of the stored
output format, the stored delimiter and the packet:
`"3"`/`"SB"`: `[float(v) for v in packet.split(delim)]`;
`"CSV"`: the same comprehension followed by the slice `[::3]`;
`"RES"`: `[float(v) for v in packet.split(delim)[2:4]]` (slice before parse);
any other format selects no branch (`none`).  A `none` from `pySplit` or
`mapFloat` is the propagated `ValueError`. -/
def parse_values_decode (fmt delim packet : String) : Option (List ℚ) :=
  if fmt = "3" ∨ fmt = "SB" then
    (pySplit delim packet).bind mapFloat
  else if fmt = "CSV" then
    ((pySplit delim packet).bind mapFloat).map stride3
  else if fmt = "RES" then
    (pySplit delim packet).bind (fun fs => mapFloat ((fs.drop 2).take 2))
  else none

/-- `_parse_values(self, packet)`: the format and delimiter are read from the
`_datagram` dictionary (not from the instance attributes).  If the selected
branch raises (`none`), neither `_values` nor `_available` is written; if a
branch succeeds `_values` is overwritten; in either remaining control path the
trailing `self._available = True` runs (in particular it runs when the stored
format selects no branch at all). -/
def parse_values (st : DriverState) (packet : String) : DriverState :=
  if st.dg.output_format = "3" ∨ st.dg.output_format = "SB" ∨
      st.dg.output_format = "CSV" ∨ st.dg.output_format = "RES" then
    match parse_values_decode st.dg.output_format st.dg.delimiter packet with
    | some vs => { st with values := vs, available := true }
    | none => st
  else { st with available := true }

/-! ## Registry dispatch (`_parse_packet`, `_parse_header`, `_parse_delimiter`,
`src/minict/minict.py` lines 157-174) -/

/-- `_parse_header`: `name, value = packet.split(":")` (a `ValueError`, here
`none`, unless the split has exactly two parts), then insert the stripped
pair into the nested header map. -/
def parse_header (dg : Datagram) (packet : String) : Option Datagram :=
  match pySplit (":") packet with
  | some [k, v] =>
    let hk := String.mk (trimChars k.data)
    let hv := String.mk (trimChars v.data)
    some { dg with header := dictInsert hk hv dg.header }
  | _ => none

/-- `_parse_packet`: a packet arriving in interrupt mode is routed by the last
acknowledged command.  `"S"` routes to `_parse_values`; a registered `#` code
stores the (possibly transformed) payload in its `_datagram` field; an
unregistered non-empty code is a `KeyError` swallowed to a no-op; an empty
code is a no-op. -/
def parse_packet (st : DriverState) (packet : String) : DriverState :=
  if st.command = "S" then parse_values st packet
  else if st.command.length > 0 then
    if st.command = "#002" then { st with dg := { st.dg with address := packet } }
    else if st.command = "#004" then
      match parse_header st.dg packet with
      | some dg1 => { st with dg := dg1 }
      | none => st
    else if st.command = "#006" then { st with dg := { st.dg with address_mode := packet } }
    else if st.command = "#015" then { st with dg := { st.dg with last_result := packet } }
    else if st.command = "#027" then { st with dg := { st.dg with delimiter := stripQuotes packet } }
    else if st.command = "#029" then { st with dg := { st.dg with run_mode := packet } }
    else if st.command = "#032" then { st with dg := { st.dg with software_version := packet } }
    else if st.command = "#034" then { st with dg := { st.dg with serial_number := packet } }
    else if st.command = "#040" then { st with dg := { st.dg with operating_mode := packet } }
    else if st.command = "#089" then { st with dg := { st.dg with output_format := packet } }
    else st
  else st

/-! ## The packet classifier and receiver step (`_receive_pkt`,
`src/minict/minict.py` lines 119-150) -/

/-- The four tags a received line can get. -/
inductive Tag
  | ack
  | intr
  | meas
  | uncls
  deriving DecidableEq

/-- The classification performed by the `if re.match(com_regex, packet)` /
`elif re.match(int_regex, packet)` / `else` chain of `_receive_pkt`, applied
to the decoded, rstripped line: acknowledgement first, then interrupt notice,
then measurement (only in continuous mode and only for a digit-leading line),
else unclassified. -/
def classify (continuousMode : Bool) (packet : String) : Tag :=
  if (lastCmdEcho packet.data).isSome then Tag.ack
  else if leadsGt packet then Tag.intr
  else if continuousMode && leadsDigit packet then Tag.meas
  else Tag.uncls

/-- One iteration of the receiver loop body on a decoded, rstripped line:
store it in `_last`, then dispatch on its classification.  An
acknowledgement stores the echoed code in `_command`; an interrupt notice
forces interrupt mode and clears `_command`; a measurement goes to
`_parse_values`; an unclassified line goes to `_parse_packet` when the driver
is in interrupt mode and is dropped otherwise. -/
def receiveStep (st : DriverState) (packet : String) : DriverState :=
  let st1 := { st with last := packet }
  match classify st.state packet with
  | Tag.ack => { st1 with command := (lastCmdEcho packet.data).getD st1.command }
  | Tag.intr => { st1 with state := false, command := "" }
  | Tag.meas => parse_values st1 packet
  | Tag.uncls => if !st1.state then parse_packet st1 packet else st1

/-! ## Send path and command API (`src/minict/minict.py` lines 185-335)

Each public operation is modelled as a function of the driver state returning
the new state (or an `Except.error` for the `AssertionError` of argument
validation) together with the list of line strings written to the transport,
in order.  The blocking body of `interrupt` (a busy-wait until the receiver
thread observes the interrupt notice and flips `_state`) is modelled by its
awaited postcondition `state = false`; no other concurrent state change is
modelled during the wait. -/

/-- `_send_pkt`: append CRLF when the packet is shorter than four characters
or when its last FOUR characters differ from the two-character string CRLF
(the comparison as written in the source), then write. -/
def send_pkt (pkt : String) : String :=
  if pkt.length < 4 ∨ sliceLast4 pkt ≠ "\r\n" then pkt ++ "\r\n" else pkt

/-- `interrupt`: in continuous mode, send `"#"` and block until the receiver
has flipped `_state`; a no-op in interrupt mode. -/
def interrupt (st : DriverState) : DriverState × List String :=
  if st.state then ({ st with state := false }, [send_pkt ("#")])
  else (st, [])

/-- `continuous(rate)`: set continuous mode and send `M<rate>`.  There is no
validation of `rate` in the source. -/
def continuous (st : DriverState) (rate : Int) : DriverState × List String :=
  ({ st with state := true }, [send_pkt ("M" ++ toString rate)])

/-- `get_measurements`: consume the buffer if the availability flag is set
(clearing only the flag), else report no data (`none`, Python `False`). -/
def get_measurements (st : DriverState) : Option (List ℚ) × DriverState :=
  if st.available then (some st.values, { st with available := false })
  else (none, st)

/-- The `AssertionError` message of `set_mode`. -/
def mode_err : String := "M value must be one of [1, 2, 4, 8]."

/-- The `AssertionError` message of `set_baud`. -/
def baud_err : String := "Baudrate must be one of [2400, 4800, 9600, 19200, 38400]."

/-- The `AssertionError` message of `set_output_format`. -/
def fmt_err : String := "Precision must be one of [3, \"CSV\", \"SB\", \"RES\"]"

/-- `set_mode(value)`: assert the rate is legal (nothing is sent otherwise),
then interrupt and send `#039;M<value>`. -/
def set_mode (st : DriverState) (v : Int) :
    Except String DriverState × List String :=
  if v ∈ ([1, 2, 4, 8] : List Int) then
    let p := interrupt st
    (Except.ok p.1, p.2 ++ [send_pkt ("#039;M" ++ toString v)])
  else (Except.error mode_err, [])

/-- `set_baud(baud)`: assert the baud rate is legal (nothing is sent
otherwise).  A different rate than the current one triggers interrupt,
`#059;<baud>`, then stop / re-`__init__` at the new rate / start — a full
reconnect that resets every driver attribute. -/
def set_baud (st : DriverState) (baud : Int) :
    Except String DriverState × List String :=
  if baud ∈ ([2400, 4800, 9600, 19200, 38400] : List Int) then
    if baud = st.baudrate then (Except.ok st, [])
    else
      let p := interrupt st
      (Except.ok { initState baud with running := true },
        p.2 ++ [send_pkt ("#059;" ++ toString baud)])
  else (Except.error baud_err, [])

/-- A Python value that is either an int or a str, as accepted by
`set_output_format` (the legal set `[3, "CSV", "SB", "RES"]` mixes both). -/
inductive PyVal
  | pyInt (n : Int)
  | pyStr (s : String)
  deriving DecidableEq

/-- Python `str(v)`. -/
def pyvalStr : PyVal → String
  | PyVal.pyInt n => toString n
  | PyVal.pyStr s => s

/-- `set_output_format(output_format)`: assert the format is legal (nothing is
sent otherwise), interrupt, send `#082;<fmt>`, then synchronously set the
instance attributes `_output_format` (as `str(fmt)`) and `_delimiter`
(tab for `3`, comma for the others).  The `_datagram` dictionary is not
touched. -/
def set_output_format (st : DriverState) (v : PyVal) :
    Except String DriverState × List String :=
  if v = PyVal.pyInt 3 ∨ v = PyVal.pyStr "CSV" ∨ v = PyVal.pyStr "SB" ∨
      v = PyVal.pyStr "RES" then
    let p := interrupt st
    let st1 := { p.1 with output_format := pyvalStr v }
    let st2 :=
      if v = PyVal.pyInt 3 then { st1 with delimiter := "\t" }
      else if v = PyVal.pyStr "CSV" ∨ v = PyVal.pyStr "SB" ∨ v = PyVal.pyStr "RES" then
        { st1 with delimiter := "," }
      else st1
    (Except.ok st2, p.2 ++ [send_pkt ("#082;" ++ pyvalStr v)])
  else (Except.error fmt_err, [])

/-! ## The inline decoder of the near-duplicate top-level driver
(`src/minict.py`, `_receive_pkt` lines 134-143)

The top-level script decodes a digit-leading line inline, guarded by a
non-empty `self._delimiter`, reading `self._output_format` and
`self._delimiter` (the instance attributes) and rstripping the decoded buffer
before splitting. -/

/-- The value computation of the inline decode branch of `src/minict.py`:
`"3"`/`"SB"`: `[float(v) for v in buff.decode().rstrip().split(delim)]`;
`"CSV"`: the same comprehension sliced `[::3]`;
`"RES"`: `[float(v) for v in buff.decode().rstrip().split(delim)[2:4]]`;
any other format computes no values. -/
def inline_decode (fmt delim buff : String) : Option (List ℚ) :=
  if fmt = "3" ∨ fmt = "SB" then
    (pySplit delim (pyRstrip buff)).bind mapFloat
  else if fmt = "CSV" then
    ((pySplit delim (pyRstrip buff)).bind mapFloat).map stride3
  else if fmt = "RES" then
    (pySplit delim (pyRstrip buff)).bind (fun fs => mapFloat ((fs.drop 2).take 2))
  else none

/-! ## Helper lemmas -/

/-- A float comprehension over a list with an unparseable member raises. -/
theorem mapFloat_eq_none (fs : List String) (f : String)
    (hmem : f ∈ fs) (hf : parseFloat f = none) : mapFloat fs = none := by
  induction fs with
  | nil => cases hmem
  | cons s rest ih =>
    rcases List.mem_cons.mp hmem with h | h
    · subst h; simp [mapFloat, hf]
    · have hr := ih h
      cases hps : parseFloat s <;> simp [mapFloat, hps, hr]

/-! ## Claims -/

/-- C1: every received line gets exactly one tag, decided in the priority
order Acknowledgement > Interrupt-Notice > Measurement > Unclassified; a line
is tagged Measurement only in continuous mode and only when it begins with a
decimal digit; a line matching the command-echo pattern (`#` plus three
digits, possibly after leading characters) is tagged Acknowledgement no
matter how it begins. -/
theorem classifier_priority (cont : Bool) (p : String) :
    (classify cont p = Tag.ack ↔ (lastCmdEcho p.data).isSome = true)
    ∧ (classify cont p = Tag.intr ↔
        ((lastCmdEcho p.data).isSome = false ∧ leadsGt p = true))
    ∧ (classify cont p = Tag.meas ↔
        ((lastCmdEcho p.data).isSome = false ∧ leadsGt p = false ∧
          cont = true ∧ leadsDigit p = true))
    ∧ (classify cont p = Tag.uncls ↔
        ((lastCmdEcho p.data).isSome = false ∧ leadsGt p = false ∧
          ¬(cont = true ∧ leadsDigit p = true)))
    ∧ ((lastCmdEcho p.data).isSome = true → classify cont p = Tag.ack) := by
  unfold classify
  cases h1 : (lastCmdEcho p.data).isSome <;> cases h2 : leadsGt p <;>
    cases cont <;> cases h3 : leadsDigit p <;> simp

/-- C1 witness: a line containing `#123` after a `>` is an acknowledgement;
a digit-leading line is a measurement in continuous mode and unclassified in
interrupt mode. -/
theorem classifier_priority_witness :
    classify true (">#123") = Tag.ack
    ∧ classify true ("12.5") = Tag.meas
    ∧ classify false ("12.5") = Tag.uncls :=
  ⟨(classifier_priority true (">#123")).2.2.2.2 (by decide),
   (classifier_priority true ("12.5")).2.2.1.mpr (by decide),
   (classifier_priority false ("12.5")).2.2.2.1.mpr (by decide)⟩

/-- C2: the value decoder on the three specified mode/delimiter/line
triples: Raw3 with tab, CSV with comma (stride 3 from index 0), RES with
comma (indices 2 and 3). -/
theorem value_decoder_mode_examples :
    parse_values_decode ("3") ("\t") ("1.0\t2.0\t3.0") = some [1, 2, 3]
    ∧ parse_values_decode ("CSV") (",") ("1,2,3,4,5,6") = some [1, 4]
    ∧ parse_values_decode ("RES") (",") ("1,2,3,4,5") = some [3, 4] := by
  refine ⟨?_, ?_, ?_⟩ <;> decide

/-- C3 counterexample: in RES mode the slice `[2:4]` is taken before any
field is parsed, so the line `1,abc,3,4` — whose field `abc` fails to parse
as a float — is NOT dropped: the buffer is overwritten with `[3, 4]` and the
availability flag is set. -/
theorem res_malformed_field_published :
    pySplit (",") ("1,abc,3,4") = some ["1", "abc", "3", "4"]
    ∧ parseFloat ("abc") = none
    ∧ parse_values
        { initState 19200 with
            dg := { initDatagram with output_format := "RES", delimiter := "," } }
        ("1,abc,3,4") =
      { initState 19200 with
          dg := { initDatagram with output_format := "RES", delimiter := "," },
          values := [3, 4], available := true } := by
  refine ⟨by decide, by decide, by decide⟩

/-- C3 amended: a parse failure among the fields the decoder actually
parses — every field for Raw3, SB and CSV, only the fields at indices 2 and
3 for RES — aborts the decode attempt, leaving the published buffer and the
availability flag unchanged. -/
theorem decode_abort_preserves_state (st : DriverState) (line : String)
    (fs : List String) (hsplit : pySplit st.dg.delimiter line = some fs) :
    ((st.dg.output_format = "3" ∨ st.dg.output_format = "SB" ∨
        st.dg.output_format = "CSV") →
      (∃ f ∈ fs, parseFloat f = none) → parse_values st line = st)
    ∧ (st.dg.output_format = "RES" →
      (∃ f ∈ (fs.drop 2).take 2, parseFloat f = none) →
      parse_values st line = st) := by
  constructor
  · rintro hfmt ⟨f, hmem, hf⟩
    have hn := mapFloat_eq_none fs f hmem hf
    rcases hfmt with h | h | h <;>
      simp [parse_values, parse_values_decode, h, hsplit, hn]
  · rintro h ⟨f, hmem, hf⟩
    have hn := mapFloat_eq_none _ f hmem hf
    simp [parse_values, parse_values_decode, h, hsplit, hn]

/-- C3 witness: in Raw3 mode the malformed line `1.0<TAB>abc` leaves the
driver state untouched. -/
theorem decode_abort_preserves_state_witness :
    parse_values
      { initState 19200 with
          dg := { initDatagram with output_format := "3", delimiter := "\t" } }
      ("1.0\tabc") =
      { initState 19200 with
          dg := { initDatagram with output_format := "3", delimiter := "\t" } } :=
  (decode_abort_preserves_state _ ("1.0\tabc") ["1.0", "abc"] (by decide)).1
    (by decide) ⟨"abc", by decide, by decide⟩

/-- C4: an interrupt-notice line (classified as such: it begins with `>` and
does not match the command-echo pattern) received in continuous mode flips
the mode state to interrupted and clears the pending command code. -/
theorem interrupt_notice_transition (st : DriverState) (p : String)
    (_hcont : st.state = true) (hack : lastCmdEcho p.data = none)
    (hgt : leadsGt p = true) :
    receiveStep st p = { st with last := p, state := false, command := "" } := by
  unfold receiveStep classify
  rw [hack]
  simp [hgt]

/-- C4 witness: the line `>` while continuous with a pending `#040`. -/
theorem interrupt_notice_transition_witness :
    receiveStep { initState 19200 with state := true, command := "#040" } (">") =
      { { initState 19200 with state := true, command := "#040" } with
          last := ">", state := false, command := "" } :=
  interrupt_notice_transition _ _ rfl (by decide) (by decide)

/-- The driver state after `set_output_format("CSV")` on a freshly
constructed driver. -/
def stateAfterFormatChange : DriverState :=
  match (set_output_format (initState 19200) (PyVal.pyStr "CSV")).1 with
  | Except.ok st => st
  | Except.error _ => initState 19200

/-- The state after `set_output_format("CSV")`, then `continuous(2)`, then
the receiver processing the measurement line `1,2,3,4,5,6`. -/
def stateAfterMeasurementLine : DriverState :=
  receiveStep (continuous stateAfterFormatChange 2).1 ("1,2,3,4,5,6")

/-- C5: `set_output_format` does update the instance attributes
`_output_format`/`_delimiter` synchronously, but `_parse_values` reads the
`_datagram` entries, which the setter never writes (they are still the
initial empty strings), so the very next measurement line is NOT decoded
with the new format: no branch of the decoder runs (the values stay `[]`
while the flag is still set), even though decoding `1,2,3,4,5,6` under the
requested CSV format and comma delimiter would yield `[1, 4]`. -/
theorem set_output_format_not_used_by_decoder :
    stateAfterFormatChange.output_format = "CSV"
    ∧ stateAfterFormatChange.delimiter = ","
    ∧ stateAfterFormatChange.dg.output_format = ""
    ∧ stateAfterFormatChange.dg.delimiter = ""
    ∧ stateAfterMeasurementLine.values = []
    ∧ stateAfterMeasurementLine.available = true
    ∧ parse_values_decode ("CSV") (",") ("1,2,3,4,5,6") = some [1, 4] := by
  refine ⟨?_, ?_, ?_, ?_, ?_, ?_, ?_⟩ <;> decide

/-- C6: the guard `pkt[-4:] != "\r\n"` compares the last FOUR characters
with the two-character CRLF and thus never succeeds for a string of length
at least four (and shorter strings trip the length test), so `_send_pkt`
appends CRLF to EVERY packet — in particular an already CRLF-terminated
command of length at least four is not transmitted unchanged. -/
theorem send_pkt_always_appends :
    (∀ pkt : String, send_pkt pkt = pkt ++ "\r\n")
    ∧ send_pkt ("#002\r\n") = "#002\r\n\r\n" := by
  constructor
  · intro pkt
    have hc : pkt.length < 4 ∨ sliceLast4 pkt ≠ "\r\n" := by
      by_cases hl : pkt.length < 4
      · exact Or.inl hl
      · refine Or.inr (fun heq => ?_)
        have hlen : (sliceLast4 pkt).data.length = ("\r\n").data.length :=
          congrArg (fun s => s.data.length) heq
        have h2 : ("\r\n").data.length = 2 := by decide
        have h4 : (sliceLast4 pkt).data.length =
            pkt.data.length - (pkt.data.length - 4) := by
          simp [sliceLast4]
        have hlp : pkt.length = pkt.data.length := rfl
        omega
    unfold send_pkt
    rw [if_pos hc]
  · decide

/-- C7 counterexample: `continuous` performs no domain validation: called
with the out-of-set rate 3 it succeeds and writes `M3` plus CRLF to the
transport. -/
theorem continuous_unvalidated_rate :
    continuous (initState 19200) 3 =
      ({ initState 19200 with state := true }, ["M3\r\n"])
    ∧ (continuous (initState 19200) 3).2 ≠ [] := by
  refine ⟨by decide, by decide⟩

/-- C7 amended: `set_baud`, `set_mode` and `set_output_format` check their
argument against the fixed legal set before transmission and fail with the
invalid-argument condition, writing nothing, on an out-of-set value;
`continuous`, however, validates nothing and transmits `M<rate>` for every
rate. -/
theorem command_arg_validation (st : DriverState) :
    (∀ baud : Int, baud ∉ ([2400, 4800, 9600, 19200, 38400] : List Int) →
        set_baud st baud = (Except.error baud_err, []))
    ∧ (∀ v : Int, v ∉ ([1, 2, 4, 8] : List Int) →
        set_mode st v = (Except.error mode_err, []))
    ∧ (∀ v : PyVal,
        ¬(v = PyVal.pyInt 3 ∨ v = PyVal.pyStr "CSV" ∨ v = PyVal.pyStr "SB" ∨
            v = PyVal.pyStr "RES") →
        set_output_format st v = (Except.error fmt_err, []))
    ∧ (∀ rate : Int, continuous st rate =
        ({ st with state := true }, [send_pkt ("M" ++ toString rate)])) := by
  refine ⟨?_, ?_, ?_, ?_⟩
  · intro baud h; simp [set_baud, h]
  · intro v h; simp [set_mode, h]
  · intro v h; simp [set_output_format, h]
  · intro rate; rfl

/-- C7 witness: baud 1234, mode rate 3 and format string `RAW` are all
rejected with nothing written; `continuous(5)` transmits `M5`. -/
theorem command_arg_validation_witness :
    set_baud (initState 19200) 1234 = (Except.error baud_err, [])
    ∧ set_mode (initState 19200) 3 = (Except.error mode_err, [])
    ∧ set_output_format (initState 19200) (PyVal.pyStr "RAW") =
        (Except.error fmt_err, [])
    ∧ continuous (initState 19200) 5 =
        ({ initState 19200 with state := true },
          [send_pkt ("M" ++ toString (5 : Int))]) :=
  ⟨(command_arg_validation (initState 19200)).1 1234 (by decide),
   (command_arg_validation (initState 19200)).2.1 3 (by decide),
   (command_arg_validation (initState 19200)).2.2.1 (PyVal.pyStr "RAW") (by decide),
   (command_arg_validation (initState 19200)).2.2.2 5⟩

/-- C8: with the availability flag set, `get_measurements` returns the
buffered values and clears the flag, so an immediately following call with
no new data reports no data; with the flag clear it reports no data and
leaves the state unchanged. -/
theorem get_measurements_consume (st : DriverState) :
    (st.available = true →
      get_measurements st = (some st.values, { st with available := false })
      ∧ (get_measurements (get_measurements st).2).1 = none)
    ∧ (st.available = false → get_measurements st = (none, st)) := by
  constructor
  · intro h
    refine ⟨by simp [get_measurements, h], by simp [get_measurements, h]⟩
  · intro h; simp [get_measurements, h]

/-- C8 witness: a state with an available buffer `[5]`. -/
theorem get_measurements_consume_witness :
    get_measurements { initState 19200 with available := true, values := [5] } =
      (some ({ initState 19200 with available := true, values := [5] } : DriverState).values,
        { { initState 19200 with available := true, values := [5] } with
            available := false })
    ∧ (get_measurements
        (get_measurements
          { initState 19200 with available := true, values := [5] }).2).1 = none :=
  (get_measurements_consume
    { initState 19200 with available := true, values := [5] }).1 rfl

/-- C9: when the stored `_datagram["output_format"]` is none of `3`, `SB`,
`CSV`, `RES` (for example the initial empty string), `_parse_values` leaves
the values list untouched yet still sets the availability flag, so the next
`get_measurements` hands back the stale (possibly empty) list as if it were
fresh data instead of reporting no data. -/
theorem unknown_format_publishes_stale (st : DriverState) (p : String)
    (hfmt : ¬(st.dg.output_format = "3" ∨ st.dg.output_format = "SB" ∨
      st.dg.output_format = "CSV" ∨ st.dg.output_format = "RES")) :
    parse_values st p = { st with available := true }
    ∧ (get_measurements (parse_values st p)).1 = some st.values := by
  have h1 : parse_values st p = { st with available := true } := by
    unfold parse_values
    rw [if_neg hfmt]
  refine ⟨h1, by rw [h1]; simp [get_measurements]⟩

/-- C9 witness: a fresh driver (format is the empty string) processing the
digit-leading line `123`. -/
theorem unknown_format_publishes_stale_witness :
    parse_values (initState 19200) ("123") = { initState 19200 with available := true }
    ∧ (get_measurements (parse_values (initState 19200) ("123"))).1 =
        some (initState 19200).values :=
  unknown_format_publishes_stale (initState 19200) ("123") (by decide)

/-- C10: on every measurement line, every non-empty delimiter and every
output format in the legal set, the inline decode branch of the top-level
`src/minict.py` and `_parse_values` of the packaged `src/minict/minict.py`
(whose caller rstrips the line first) compute the same values. -/
theorem duplicate_decoders_agree (fmt delim line : String)
    (hfmt : fmt = "3" ∨ fmt = "SB" ∨ fmt = "CSV" ∨ fmt = "RES")
    (_hd : delim ≠ "") :
    inline_decode fmt delim line = parse_values_decode fmt delim (pyRstrip line) := by
  rcases hfmt with h | h | h | h <;> subst h <;> rfl

/-- C10 witness: the CSV format, comma delimiter and the raw line
`1,2,3,4,5,6` with its CRLF terminator. -/
theorem duplicate_decoders_agree_witness :
    inline_decode ("CSV") (",") ("1,2,3,4,5,6\r\n") =
      parse_values_decode ("CSV") (",") (pyRstrip ("1,2,3,4,5,6\r\n")) :=
  duplicate_decoders_agree ("CSV") (",") ("1,2,3,4,5,6\r\n")
    (by decide) (by decide)
